import Mathlib

/-!
Verification of the core of `aichat_nvim` (a Neovim plugin driving the
`aichat` CLI) against its natural-language specification.

The development shallowly embeds the three core subsystems:
* the selection engine `UiSelect::show_with_callback` (src/ui.rs) and the
  `vim_ui_select` wrapper, modelled as a step function on an explicit
  engine state driven by key events;
* the configuration store (src/config.rs): `AichatConfig`, `get_config`
  with lock-poisoning recovery, and `update_config`;
* the command runner (src/job_runner.rs): argument construction,
  post-wait output handling and `extract_first_code_block`.
-/

set_option autoImplicit false

namespace AichatNvim

/-! ## Data model (src/config.rs) -/

/-- The mode category, `enum Mode` in src/config.rs (Role / Agent / Macro). -/
inductive Mode where
  | Role
  | Agent
  | Macro
deriving DecidableEq, Repr

/-- `struct AichatConfig` (src/config.rs:10-16): optional mode flag with its
argument, optional RAG source, optional session. -/
structure AichatConfig where
  mode_flag : Option Mode
  mode_arg : Option String
  rag : Option String
  session : Option String
deriving DecidableEq, Repr

/-- The initial store contents (src/config.rs:64-71): all fields unset. -/
def initialConfig : AichatConfig :=
  { mode_flag := none, mode_arg := none, rag := none, session := none }

/-! ## Selection engine (src/ui.rs, `UiSelect::show_with_callback`)

`show_with_callback` wraps the opened window in an `Rc<RefCell<Option<Window>>>`
cell shared by the two key handlers; each handler begins with
`borrow_mut().take()`. We model the observable state of one engine instance:
whether the cell still holds the window, whether the window is open on screen,
and the list of callback invocations (the callback receives the selected item
as a `String`; the source has no other invocation site). -/

/-- Observable state of one `show_with_callback` instance. -/
structure EngineState where
  /-- the `Rc<RefCell<Option<Window>>>` cell still holds the window -/
  cellOccupied : Bool
  /-- the floating window is open on screen -/
  windowOpen : Bool
  /-- callback invocations so far, in order, each carrying the item string -/
  calls : List String
deriving DecidableEq, Repr

/-- State right after `show_with_callback` returns: the window has been opened
and placed in the shared cell; no callback has fired. -/
def initEngineState : EngineState :=
  { cellOccupied := true, windowOpen := true, calls := [] }

/-- A key event delivered to the instance. Cursor rows reported by the host
are 1-based. -/
inductive UiEvent where
  /-- `<CR>` pressed with the cursor on the given 1-based row -/
  | confirm (row : Nat)
  /-- `<CR>` pressed but `win.get_cursor()` returns an error -/
  | confirmCursorFail
  /-- `<ESC>` pressed -/
  | cancel
deriving DecidableEq, Repr

/-- One key event against one instance, translated from the two handlers
installed in `show_with_callback` (src/ui.rs:193-232).

`<CR>`: `take()` the window from the cell; on success read the cursor and look
up `items.get(row - 1)`; if the item exists, close the window and invoke the
callback with it; if not (`None => err_writeln("No lines found")`) or if the
cursor read failed, only an error is printed — the window, already taken from
the cell, is dropped without being closed. If the cell is empty the handler
prints `"No window found"` and does nothing.

`<ESC>`: `take()` the window and close it; no callback. If the cell is empty,
print `"No window found"` and do nothing. -/
def uiStep (items : List String) (s : EngineState) : UiEvent → EngineState
  | .confirm row =>
      if s.cellOccupied then
        match items[row - 1]? with
        | some line =>
            { cellOccupied := false, windowOpen := false, calls := s.calls ++ [line] }
        | none =>
            { cellOccupied := false, windowOpen := s.windowOpen, calls := s.calls }
      else s
  | .confirmCursorFail =>
      if s.cellOccupied then
        { cellOccupied := false, windowOpen := s.windowOpen, calls := s.calls }
      else s
  | .cancel =>
      if s.cellOccupied then
        { cellOccupied := false, windowOpen := false, calls := s.calls }
      else s

/-- Run a sequence of key events against one instance. -/
def uiRun (items : List String) (s : EngineState) (evs : List UiEvent) : EngineState :=
  evs.foldl (uiStep items) s

/-! ## `vim_ui_select` (src/ui.rs:281-352)

For the empty-items case the function invokes the callback with
`(None, None)` and returns `Ok(())` before any UI is touched; otherwise it
builds the Lua arguments and delegates to the host's `vim.ui.select`,
which owns the surface from then on. We record the callback invocations the
function itself performs, whether it opened (delegated to) a UI surface,
and whether it returned success. -/

/-- Outcome of one `vim_ui_select` call, up to the point where control passes
to the host. -/
structure VimUiSelectOutcome where
  /-- callback invocations performed directly by `vim_ui_select` -/
  calls : List (Option String × Option Nat)
  /-- a UI surface was opened (the call was handed to `vim.ui.select`) -/
  openedSurface : Bool
  /-- the function returned `Ok(())` -/
  returnedOk : Bool
deriving DecidableEq, Repr

/-- `vim_ui_select` (src/ui.rs:285-288 and onward): empty `items` short-circuits
with `callback(None, None); return Ok(())`; otherwise the host's
`vim.ui.select` is invoked with the items and the wrapped callback. -/
def vim_ui_select (items : List String) : VimUiSelectOutcome :=
  if items.isEmpty then
    { calls := [(none, none)], openedSurface := false, returnedOk := true }
  else
    { calls := [], openedSurface := true, returnedOk := true }

/-! ## Code-block extraction (src/job_runner.rs:79-109)

The Rust `str` primitives the extraction uses (`lines`, `trim`,
`starts_with`, `is_empty`) are embedded as structurally recursive functions
over the character list of the string, so that every definition evaluates
inside the kernel. -/

/-- Whitespace as stripped by `str::trim` (for the ASCII characters that can
occur here). -/
def isWs (c : Char) : Bool :=
  c = ' ' || c = '\t' || c = '\r' || c = '\n'

/-- Rust `str::trim`: strip whitespace from both ends. -/
def rustTrim (s : String) : String :=
  ⟨((s.data.dropWhile isWs).reverse.dropWhile isWs).reverse⟩

/-- `List Char` prefix test for `str::starts_with`. -/
def charsStartWith : List Char → List Char → Bool
  | _, [] => true
  | [], _ :: _ => false
  | c :: cs, p :: ps => c = p && charsStartWith cs ps

/-- Rust `str::starts_with`. -/
def rustStartsWith (s pre : String) : Bool :=
  charsStartWith s.data pre.data

/-- Split a character list at `\n` separators. -/
def splitNl : List Char → List (List Char)
  | [] => [[]]
  | c :: cs =>
      if c = '\n' then [] :: splitNl cs
      else
        match splitNl cs with
        | [] => [[c]]
        | l :: ls => (c :: l) :: ls

/-- Strip one trailing `\r` (Rust `lines` treats `\r\n` as one terminator). -/
def stripCr (l : List Char) : List Char :=
  match l.getLast? with
  | some c => if c = '\r' then l.dropLast else l
  | none => l

/-- Rust `str::lines`: split on `\n`, do not produce a final empty line for a
trailing newline, strip a trailing `\r` from each line. -/
def rustLines (s : String) : List String :=
  let parts := splitNl s.data
  let parts :=
    match parts.getLast? with
    | some [] => parts.dropLast
    | _ => parts
  parts.map fun l => ⟨stripCr l⟩

/-- The scanning loop of `extract_first_code_block`: walk the lines with the
`in_code_block` flag and the accumulated block. A line whose trimmed content
starts with the triple-backtick fence either opens the block (and is itself
skipped via `continue`) or closes it (returning the accumulation); any other
line is appended, followed by a newline, when inside the block. At
end-of-input a non-empty accumulation is returned, otherwise the result is
`none`. -/
def extractLoop : List String → Bool → String → Option String
  | [], _, acc => if acc.data.isEmpty then none else some acc
  | l :: ls, inBlock, acc =>
      if rustStartsWith (rustTrim l) "```" then
        if inBlock then some acc
        else extractLoop ls true acc
      else if inBlock then
        extractLoop ls inBlock (acc ++ l ++ "\n")
      else
        extractLoop ls inBlock acc

/-- `extract_first_code_block` (src/job_runner.rs:79-109). -/
def extract_first_code_block (text : String) : Option String :=
  extractLoop (rustLines text) false ""

/-! ## Configuration store (src/config.rs) -/

/-- The global `static CONFIG: Lazy<Mutex<AichatConfig>>`: the stored value
together with the mutex's poison flag (set when a holder panicked). -/
structure ConfigMutex where
  poisoned : Bool
  data : AichatConfig
deriving DecidableEq, Repr

/-- The store at first access (src/config.rs:64-71). -/
def initConfigMutex : ConfigMutex :=
  { poisoned := false, data := initialConfig }

/-- `get_config` (src/config.rs:76-84): `CONFIG.lock()` yields the guard on
`Ok`; on `Err(poisoned)` the guard is recovered with
`poisoned.into_inner()`. Either way the caller obtains the stored value. -/
def get_config (m : ConfigMutex) : AichatConfig :=
  if m.poisoned then m.data else m.data

/-- `update_config` (src/config.rs:217-261) applied to a configuration value:
for the mode categories, when a `mode` is supplied, `mode_flag` is set to it
exactly when a value is present (cleared otherwise) and `mode_arg` becomes the
value, in the same critical section; `"sessions"` and `"rags"` update only
their own field; any other category is rejected with an error and the
configuration is left unchanged (the error is returned before any field is
written). -/
def update_config (option_type : String) (value : Option String)
    (mode : Option Mode) (config : AichatConfig) : Except String AichatConfig :=
  match option_type with
  | "roles" | "agents" | "macros" =>
      match mode with
      | some mode_val =>
          .ok { config with
                mode_flag := if value.isSome then some mode_val else none,
                mode_arg := value }
      | none => .ok config
  | "sessions" => .ok { config with session := value }
  | "rags" => .ok { config with rag := value }
  | _ => .error ("Invalid option type: " ++ option_type)

/-- `update_config` acting on the global store: it acquires the guard once via
`get_config()` and mutates the fields through it, so on success the new value
is written back to the store (the poison flag is untouched: recovery happens
on each access, `into_inner` does not clear it). -/
def update_config_mutex (option_type : String) (value : Option String)
    (mode : Option Mode) (m : ConfigMutex) : Except String ConfigMutex :=
  match update_config option_type value mode (get_config m) with
  | .ok c => .ok { m with data := c }
  | .error e => .error e

/-- The invariant of §3 of the spec: `mode_arg` is set iff `mode_flag` is. -/
def modeInvariant (c : AichatConfig) : Prop :=
  c.mode_arg.isSome = c.mode_flag.isSome

instance (c : AichatConfig) : Decidable (modeInvariant c) := by
  unfold modeInvariant; infer_instance

/-- Writing through the guard returned by `get_config`, as every mutator in
src/config.rs does (`let mut config = get_config(); config.field = ...`):
the mutation lands in the store. -/
def modify_via_guard (m : ConfigMutex) (f : AichatConfig → AichatConfig) :
    ConfigMutex :=
  { m with data := f (get_config m) }

/-- Modelled from the spec: `read() -> ConfigurationSnapshot` returns "a
consistent, independent copy (not a live reference)". Mutating the returned
snapshot therefore does not write back: the store is unchanged. -/
def modify_via_snapshot (m : ConfigMutex) (f : AichatConfig → AichatConfig) :
    ConfigMutex :=
  let snapshot := get_config m
  let _updated := f snapshot
  m

/-! ## Command runner (src/job_runner.rs:8-76) -/

/-- Argument construction of `run_aichat_command` (src/job_runner.rs:13-27).
The source matches `config.mode_flag : Option<Mode>` against the bare
variants `Role` / `Agent` / `Macro` — there is no arm for `None`, so the
unset-mode case has no behaviour in the source (the `match` is not
exhaustive over `Option<Mode>` and the file cannot compile as written);
that case is modelled as `none`. Each arm runs
`cmd.arg(flag).arg(config.mode_arg.as_ref())`, emitting the flag and the
contained argument string; then `--rag value` iff `rag` is set, then
`--session value` iff `session` is set, in that order. -/
def buildAichatArgs (config : AichatConfig) : Option (List String) :=
  match config.mode_flag with
  | some Mode.Role =>
      some (["--role"] ++ config.mode_arg.toList
        ++ (config.rag.map fun r => ["--rag", r]).getD []
        ++ (config.session.map fun s => ["--session", s]).getD [])
  | some Mode.Agent =>
      some (["--agent"] ++ config.mode_arg.toList
        ++ (config.rag.map fun r => ["--rag", r]).getD []
        ++ (config.session.map fun s => ["--session", s]).getD [])
  | some Mode.Macro =>
      some (["--macro"] ++ config.mode_arg.toList
        ++ (config.rag.map fun r => ["--rag", r]).getD []
        ++ (config.session.map fun s => ["--session", s]).getD [])
  | none => none

/-- The post-wait tail of `run_aichat_command` (src/job_runner.rs:56-76), as a
function of the collected process result: on a non-zero exit status the
captured stderr is wrapped in the failure message and returned as the error
(stdout is never consulted); on success stdout goes to
`extract_first_code_block`, whose `None` becomes the no-code-block error. -/
def run_aichat_command_output (exitCode : Nat) (stdout stderr : String) :
    Except String String :=
  if exitCode ≠ 0 then
    .error ("aichat command failed: " ++ stderr)
  else
    match extract_first_code_block stdout with
    | some s => .ok s
    | none => .error "No code block found in output"

/-! ## Helper lemmas -/

/-- The per-instance invariant behind the at-most-once guarantee: while the
cell still holds the window no callback has fired, and at most one callback
ever fires. -/
def uiGood (s : EngineState) : Prop :=
  (s.cellOccupied = true → s.calls = []) ∧ s.calls.length ≤ 1

theorem uiStep_good (items : List String) (s : EngineState) (e : UiEvent)
    (h : uiGood s) : uiGood (uiStep items s e) := by
  obtain ⟨h1, h2⟩ := h
  cases e with
  | confirm row =>
      by_cases hc : s.cellOccupied = true
      · rcases hg : items[row - 1]? with _ | line <;>
          simp [uiStep, hc, hg, uiGood, h1 hc]
      · simp only [uiStep, hc, if_neg]
        exact ⟨h1, h2⟩
  | confirmCursorFail =>
      by_cases hc : s.cellOccupied = true
      · simp [uiStep, hc, uiGood, h1 hc]
      · simp only [uiStep, hc, if_neg]
        exact ⟨h1, h2⟩
  | cancel =>
      by_cases hc : s.cellOccupied = true
      · simp [uiStep, hc, uiGood, h1 hc]
      · simp only [uiStep, hc, if_neg]
        exact ⟨h1, h2⟩

theorem uiRun_good (items : List String) (evs : List UiEvent) (s : EngineState)
    (h : uiGood s) : uiGood (uiRun items s evs) := by
  induction evs generalizing s with
  | nil => exact h
  | cons e evs ih => exact ih (uiStep items s e) (uiStep_good items s e h)

theorem get_config_eq (m : ConfigMutex) : get_config m = m.data := by
  unfold get_config
  split <;> rfl

theorem extractLoop_no_fence (ls : List String)
    (h : ∀ l ∈ ls, ¬ rustStartsWith (rustTrim l) "```" = true) :
    extractLoop ls false "" = none := by
  induction ls with
  | nil => decide
  | cons l ls ih =>
      have hl : ¬ rustStartsWith (rustTrim l) "```" = true := h l (by simp)
      simp only [extractLoop, hl, if_false, Bool.false_eq_true, ite_false]
      exact ih fun x hx => h x (List.mem_cons_of_mem l hx)

theorem extractLoop_body (body : List String) :
    ∀ (rest : List String) (acc close : String),
      (∀ l ∈ body, ¬ rustStartsWith (rustTrim l) "```" = true) →
      rustStartsWith (rustTrim close) "```" = true →
      extractLoop (body ++ close :: rest) true acc
        = some (body.foldl (fun a l => a ++ l ++ "\n") acc) := by
  induction body with
  | nil =>
      intro rest acc close _ hclose
      simp [extractLoop, hclose]
  | cons b body ih =>
      intro rest acc close hbody hclose
      have hb : ¬ rustStartsWith (rustTrim b) "```" = true := hbody b (by simp)
      simp only [List.cons_append, extractLoop, hb, if_false,
        Bool.false_eq_true, ite_false, ite_true, List.foldl_cons]
      exact ih rest (acc ++ b ++ "\n") close
        (fun x hx => hbody x (List.mem_cons_of_mem b hx)) hclose

/-! ## Claims -/

/-- Claim C1: per `show_with_callback` instance the result callback fires at
most once, over every sequence of confirm / cursor-failure / cancel events —
whichever handler fires first takes the window out of the shared
`Rc<RefCell<Option<Window>>>` cell — and a second cancel on the same instance
is a no-op (the run of two cancels equals the run of one). -/
theorem claim_C1 (items : List String) (evs : List UiEvent) :
    (uiRun items initEngineState evs).calls.length ≤ 1 ∧
    uiRun items initEngineState [UiEvent.cancel, UiEvent.cancel]
      = uiRun items initEngineState [UiEvent.cancel] := by
  constructor
  · exact (uiRun_good items evs initEngineState
      (by simp [uiGood, initEngineState])).2
  · rfl

/-- Claim C2 is FALSE on the code (code bug): with `items = ["a"]` and a
confirm at out-of-range row 2, the `<CR>` handler has already taken the
window from the cell before validating the row, so the take-once guard IS
consumed, zero callbacks fire, and the window is left open; the subsequent
cancel (and any valid confirm) hits an empty cell and is a no-op, leaving an
open surface that neither binding can close. -/
theorem claim_C2_code_evaluation :
    uiRun ["a"] initEngineState [UiEvent.confirm 2]
      = { cellOccupied := false, windowOpen := true, calls := [] } ∧
    uiRun ["a"] initEngineState [UiEvent.confirm 2, UiEvent.cancel]
      = { cellOccupied := false, windowOpen := true, calls := [] } ∧
    uiRun ["a"] initEngineState [UiEvent.confirm 2, UiEvent.confirm 1]
      = { cellOccupied := false, windowOpen := true, calls := [] } :=
  ⟨rfl, rfl, rfl⟩

/-- Claim C3: `extract_first_code_block` scans line by line toggling on
trimmed triple-backtick fences; the opening fence line (the one carrying the
language tag) is discarded, the lines after it are accumulated verbatim with
a newline each until a closing fence returns the accumulation; the claim's
three examples hold, and fence-free input reaches the no-code-block error. -/
theorem claim_C3 :
    extract_first_code_block "pre\n```rust\nfn main()\x7b\x7d\n```\npost"
      = some "fn main()\x7b\x7d\n" ∧
    extract_first_code_block "```py\nprint(1)" = some "print(1)\n" ∧
    (∀ text : String,
      (∀ l ∈ rustLines text, ¬ rustStartsWith (rustTrim l) "```" = true) →
      extract_first_code_block text = none ∧
      run_aichat_command_output 0 text ""
        = .error "No code block found in output") ∧
    (∀ (l : String) (ls : List String) (acc : String),
      rustStartsWith (rustTrim l) "```" = true →
      extractLoop (l :: ls) false acc = extractLoop ls true acc) ∧
    (∀ (body rest : List String) (acc : String) (close : String),
      (∀ l ∈ body, ¬ rustStartsWith (rustTrim l) "```" = true) →
      rustStartsWith (rustTrim close) "```" = true →
      extractLoop (body ++ close :: rest) true acc
        = some (body.foldl (fun a l => a ++ l ++ "\n") acc)) := by
  refine ⟨by decide, by decide, ?_, ?_, ?_⟩
  · intro text h
    have hext : extract_first_code_block text = none := extractLoop_no_fence _ h
    refine ⟨hext, ?_⟩
    simp [run_aichat_command_output, hext]
  · intro l ls acc hl
    simp [extractLoop, hl]
  · intro body rest acc close hbody hclose
    exact extractLoop_body body rest acc close hbody hclose

/-- Witness for the quantified parts of C3: fence-free input yields the
no-code-block error; an opening fence line is discarded (the loop continues
on the remaining lines with the flag set); the accumulated body is returned
at the closing fence. -/
theorem claim_C3_witness :
    (extract_first_code_block "plain text\nno fences" = none ∧
      run_aichat_command_output 0 "plain text\nno fences" ""
        = .error "No code block found in output") ∧
    extractLoop ["```rust", "abc"] false "" = extractLoop ["abc"] true "" ∧
    extractLoop (["x", "y"] ++ "```" :: ["z"]) true "" = some "x\ny\n" := by
  refine ⟨claim_C3.2.2.1 "plain text\nno fences" (by decide),
    claim_C3.2.2.2.1 "```rust" ["abc"] "" (by decide), ?_⟩
  have h := claim_C3.2.2.2.2 ["x", "y"] ["z"] "" "```" (by decide) (by decide)
  rw [h]
  decide

/-- Claim C4 is FALSE on the code (code bug): the set-mode paths and their
ordering match the claim (the example configuration yields exactly
`["--role", "coder", "--session", "s1"]`), but the unset-mode case has no
behaviour at all — the source matches `config.mode_flag : Option<Mode>`
against the bare `Role`/`Agent`/`Macro` variants with no `None` arm, so no
"omit the mode flag" path exists (modelled as `none`), contradicting the
claim that an unset mode emits no mode flag and still emits the rag/session
pairs. -/
theorem claim_C4_code_evaluation :
    buildAichatArgs { mode_flag := some Mode.Role, mode_arg := some "coder",
                      rag := none, session := some "s1" }
      = some ["--role", "coder", "--session", "s1"] ∧
    buildAichatArgs { mode_flag := none, mode_arg := none,
                      rag := none, session := some "s1" } = none ∧
    (∀ (a : String) (r s : Option String),
      buildAichatArgs { mode_flag := some Mode.Agent, mode_arg := some a,
                        rag := r, session := s }
        = some (["--agent", a] ++ (r.map fun v => ["--rag", v]).getD []
            ++ (s.map fun v => ["--session", v]).getD [])) :=
  ⟨rfl, rfl, fun _ _ _ => rfl⟩

/-- Claim C5 is FALSE on the code (code bug): for every items list, the
`<ESC>` handler of `show_with_callback` closes the window but invokes the
callback ZERO times, not once with a `None` outcome — the callback's type
`FnMut(String)` cannot even receive a cancellation value, contradicting the
function's own doc comment ("or None if cancelled", src/ui.rs:159). -/
theorem claim_C5_code_evaluation (items : List String) :
    (uiRun items initEngineState [UiEvent.cancel]).calls = [] ∧
    (uiRun items initEngineState [UiEvent.cancel]).windowOpen = false :=
  ⟨rfl, rfl⟩

/-- Claim C6: `vim_ui_select` with an empty items list invokes the callback
exactly once with the `(None, None)` outcome and returns success without
handing anything to a UI surface (src/ui.rs:285-288). -/
theorem claim_C6 :
    vim_ui_select []
      = { calls := [(none, none)], openedSurface := false, returnedOk := true } :=
  rfl

/-- Claim C7: the store starts with both mode fields unset; every successful
`update_config` preserves "`mode_arg` set iff `mode_flag` set" (the two are
written together in the same critical section); writing a mode with a value
sets both, unsetting clears both, and session / rag updates change only their
own field, leaving the mode fields untouched. -/
theorem claim_C7 :
    modeInvariant initialConfig ∧
    (∀ (ot : String) (v : Option String) (m : Option Mode)
        (c c' : AichatConfig), modeInvariant c →
      update_config ot v m c = .ok c' → modeInvariant c') ∧
    (∀ c : AichatConfig,
      update_config "agents" (some "x") (some Mode.Agent) c
        = .ok { c with mode_flag := some Mode.Agent, mode_arg := some "x" }) ∧
    (∀ (c : AichatConfig) (m : Mode),
      update_config "roles" none (some m) c
        = .ok { c with mode_flag := none, mode_arg := none }) ∧
    (∀ (c : AichatConfig) (m : Option Mode) (v : Option String),
      update_config "sessions" v m c = .ok { c with session := v }) ∧
    (∀ (c : AichatConfig) (m : Option Mode) (v : Option String),
      update_config "rags" v m c = .ok { c with rag := v }) := by
  refine ⟨by decide, ?_, fun c => rfl, fun c m => rfl,
    fun c m v => rfl, fun c m v => rfl⟩
  intro ot v m c c' hinv h
  unfold update_config at h
  split at h
  · cases m with
    | some mv =>
        injection h with h
        subst h
        cases v <;> simp [modeInvariant]
    | none =>
        injection h with h
        subst h
        exact hinv
  · cases m with
    | some mv =>
        injection h with h
        subst h
        cases v <;> simp [modeInvariant]
    | none =>
        injection h with h
        subst h
        exact hinv
  · cases m with
    | some mv =>
        injection h with h
        subst h
        cases v <;> simp [modeInvariant]
    | none =>
        injection h with h
        subst h
        exact hinv
  · injection h with h
    subst h
    exact hinv
  · injection h with h
    subst h
    exact hinv
  · exact absurd h (by simp)

/-- Witness for the quantified part of C7: a concrete successful update
preserves the invariant. -/
theorem claim_C7_witness :
    modeInvariant { mode_flag := some Mode.Agent, mode_arg := some "x",
                    rag := none, session := none } :=
  claim_C7.2.1 "agents" (some "x") (some Mode.Agent) initialConfig
    { mode_flag := some Mode.Agent, mode_arg := some "x",
      rag := none, session := none } (by decide) (by rfl)

/-- Claim C8: even when the store's mutex is poisoned, `get_config` recovers
the last-known-good state (`PoisonError::into_inner`), so a subsequent write
still succeeds and its effect is observable by a following read. -/
theorem claim_C8 (m : ConfigMutex) (v : String) (_hp : m.poisoned = true) :
    get_config m = m.data ∧
    ∃ m' : ConfigMutex,
      update_config_mutex "sessions" (some v) none m = .ok m' ∧
      (get_config m').session = some v := by
  refine ⟨get_config_eq m, { m with data := { get_config m with session := some v } }, ?_, ?_⟩
  · unfold update_config_mutex update_config
    rfl
  · rw [get_config_eq]

/-- Witness for C8 at a concretely poisoned store. -/
theorem claim_C8_witness :
    get_config { poisoned := true, data := initialConfig } = initialConfig ∧
    ∃ m' : ConfigMutex,
      update_config_mutex "sessions" (some "s1") none
        { poisoned := true, data := initialConfig } = .ok m' ∧
      (get_config m').session = some "s1" :=
  claim_C8 { poisoned := true, data := initialConfig } "s1" rfl

/-- Claim C9 as stated is FALSE: `get_config` does not return an independent
copy. If it did, a mutation applied through its result would leave the store
unchanged (`modify_via_snapshot`, the spec-modelled copy semantics); the code
writes through the returned `MutexGuard` (`modify_via_guard`, as every
mutator in src/config.rs does) and the store changes — the two semantics
disagree already at the first write to the initial store. -/
theorem claim_C9_counterexample :
    modify_via_guard initConfigMutex (fun c => { c with session := some "s1" })
      ≠ modify_via_snapshot initConfigMutex
          (fun c => { c with session := some "s1" }) := by
  decide

/-- Claim C9 amended: `get_config` returns the lock guard — live, exclusive
access to the stored value, not a detached copy: a mutation applied through
the guard writes back to the store and is observed by the next read. -/
theorem claim_C9_amended (m : ConfigMutex) (f : AichatConfig → AichatConfig) :
    modify_via_guard m f = { m with data := f m.data } ∧
    get_config (modify_via_guard m f) = f (get_config m) := by
  constructor
  · unfold modify_via_guard
    rw [get_config_eq]
  · rw [get_config_eq, get_config_eq]
    unfold modify_via_guard
    rw [get_config_eq]

/-- Claim C10: a non-zero exit status makes the runner return the failure
error carrying the captured stderr ("boom" for the claim's example), and the
captured stdout is discarded — the result is the same for every stdout, so
stdout never reaches code-block extraction. -/
theorem claim_C10 (stdout : String) :
    run_aichat_command_output 1 stdout "boom"
      = .error ("aichat command failed: " ++ "boom") ∧
    run_aichat_command_output 1 stdout "boom"
      = run_aichat_command_output 1 "" "boom" :=
  ⟨rfl, rfl⟩

end AichatNvim
